import Mathlib

/-!
Verification development for the smll interpreter: a shallow embedding of
the AST model (lexer-parser, the variant that the grammar claims cite),
and of the interpreter (interpreter.ts): `evaluate`, `execute`, `elaborate`,
the environment/store model `Rho`/`Sigma` with the closure-based `extend`,
and the error taxonomy.

Modelling conventions:
- JavaScript numbers are modelled as exactly-representable rationals `ℚ`
  plus a distinguished NaN value. NaN matters because the interpreter's
  VALUE case reads `valueNode.token`, a property neither staged ValueNode
  class defines (both store the lexeme in `value`), so the read yields
  `undefined` and literals evaluate through `Number(undefined) = NaN` and
  `Boolean(undefined) = false`. Infinity never arises on the reachable
  paths the claims exercise (division is guarded).
- JavaScript exceptions are modelled with `Except`: the interpreter's own
  `StaticError`/`DynamicError` values become `Err.staticE`/`Err.dynamicE`;
  a raw JavaScript throw that no interpreter catch converts (the bare
  string thrown by `RHO_0`/`SIGMA_0` when it escapes, or a `TypeError` from
  reading a property of `undefined`) becomes `Err.jsThrow`.
- The environment and store are functions that throw on an unbound key;
  the throwing function is modelled as an `Option`-valued function that is
  `none` exactly where the original throws.
- Object identity: every AST node object carries an allocation identity
  `ℕ`; JavaScript `===` on node objects is identity equality (`jsEq`).
  The parser allocates a fresh object per constructor call, so in any
  parsed tree all allocation identities are distinct; concrete trees below
  are written with distinct identities.
- General recursion (the WHILE rule re-executes the same node) is made
  total with a fuel parameter; running out of fuel is the distinguished
  result `Err.outOfFuel`, an artifact of the embedding, never produced by
  the source.
-/

namespace SmLL

/-- The six kind enums of the AST flattened into one type, keeping the
source's distinct numeric tags (CommandKind 0-7, ExpressionKind 9-13,
DeclarationKind 15-18, ValueKind 20-21, TypeKind 22-23, OperatorKind 24-25).
The interpreter switches on a node's kind, so only the tag matters. -/
inductive Kind where
  | cNIL | cDECLARATION_COMMAND | cCOMMAND_COMMAND | cASSIGNMENT
  | cIF | cIF_ELSE | cWHILE | cPRINT
  | eVALUE | eIDENTIFICATOR | eUNARY_OPERATOR | eBINARY_OPERATOR | ePARENTHESIS
  | dNIL | dCONSTANT | dVARIABLE | dDECLARATION_DECLARATION
  | vBOOLEAN | vNUMBER
  | tBOOLEAN | tNUMBER
  | oUNARY_OPERATOR | oBINARY_OPERATOR
  deriving DecidableEq

/-- AST nodes. `node` covers `CommandNode`, `DeclarationNode` and
`ExpressionNode` (children plus kind); `valueNode` is `ValueNode`, whose
`value` field holds the lexeme the parser action stores (`$1`) — note the
class defines no `token` property, although the interpreter reads one;
`identNode` is `IdentificatorNode` (kind `eIDENTIFICATOR`, empty children,
name payload); `typeNode` is `TypeNode`. The grammar's
`unary_operator`/`binary_operator` productions have no action, so jison's
default action puts the raw matched lexeme (a string) into the children
array: that is `opStr`. `undef` is the JavaScript `undefined` obtained by
reading past the end of a children array. The first `ℕ` of each allocated
node is its object identity. -/
inductive Node where
  | node (id : ℕ) (kind : Kind) (children : List Node)
  | valueNode (id : ℕ) (kind : Kind) (value : String)
  | identNode (id : ℕ) (name : String)
  | typeNode (id : ℕ) (kind : Kind)
  | opStr (s : String)
  | undef

/-- Reading `.kind`: allocated nodes carry their kind; a string in a
children slot has no `kind` property (JavaScript gives `undefined`),
modelled as `none`. `undef` is handled before any `.kind` access. -/
def kindOf : Node → Option Kind
  | .node _ k _ => some k
  | .valueNode _ k _ => some k
  | .identNode _ _ => some .eIDENTIFICATOR
  | .typeNode _ k => some k
  | .opStr _ => none
  | .undef => none

/-- Reading `.children`: only `node` carries children; the specialized
node classes construct with an empty children array. -/
def childrenOf : Node → List Node
  | .node _ _ cs => cs
  | _ => []

/-- `children[i]`: JavaScript indexing past the end yields `undefined`. -/
def child (cs : List Node) (i : ℕ) : Node := cs.getD i Node.undef

/-- Object identity of an allocated node. -/
def nodeId : Node → Option ℕ
  | .node i _ _ => some i
  | .valueNode i _ _ => some i
  | .identNode i _ => some i
  | .typeNode i _ => some i
  | .opStr _ => none
  | .undef => none

/-- JavaScript `===` on the values that can sit in a children array:
reference equality on objects (identity equality in the model), value
equality on strings, and `undefined === undefined`. -/
def jsEq : Node → Node → Bool
  | .opStr a, .opStr b => a == b
  | .undef, .undef => true
  | a, b =>
    match nodeId a, nodeId b with
    | some i, some j => i == j
    | _, _ => false

/-- Runtime values: `AST.Value = boolean | number`, where a JavaScript
number is either an exactly-represented rational or NaN. `typeof` of both
`num` and `nan` is the string `number`. -/
inductive Value where
  | num (q : ℚ)
  | nan
  | bool (b : Bool)
  deriving DecidableEq

/-- `typeof v === 'number'` (NaN is of type number). -/
def isNum : Value → Bool
  | .bool _ => false
  | _ => true

/-- `typeof v === 'boolean'`. -/
def isBool : Value → Bool
  | .bool _ => true
  | _ => false

/-- `typeof value1 === typeof value2`: only the types number and boolean
occur at runtime. -/
def sameType (v1 v2 : Value) : Bool := isBool v1 == isBool v2

/-- `value1 === value2` on runtime values: numeric equality on numbers,
equality on booleans, and false for every comparison involving NaN
(including NaN === NaN). The interpreter only applies this after a typeof
check, so the cross-type false case is never reached. -/
def jsStrictEq : Value → Value → Bool
  | .num a, .num b => decide (a = b)
  | .bool a, .bool b => a == b
  | _, _ => false

/-- StaticErrorType from interpreter.ts. -/
inductive StaticErrorType where
  | UNDEFINED_IDENTIFICATOR | CONSTANT_REASSIGNMENT | WRONG_TYPE | UNKNOWN_DECLARATION
  deriving DecidableEq

/-- DynamicErrorType from interpreter.ts. -/
inductive DynamicErrorType where
  | DIVISION_BY_ZERO | UNKNOWN_OPERATOR | UNKNOWN_COMMAND | UNKNOWN_EXPRESSION
  deriving DecidableEq

/-- Everything a run can abort with: the interpreter's own error classes,
a raw JavaScript throw outside that taxonomy, and the fuel artifact. -/
inductive Err where
  | staticE (t : StaticErrorType)
  | dynamicE (t : DynamicErrorType)
  | jsThrow
  | outOfFuel
  deriving DecidableEq

/-- `Location = Symbol`: an opaque token whose only operations are fresh
allocation and identity comparison; modelled by a monotonic counter. -/
abbrev Location := ℕ

/-- `Symbol() === Symbol()` identity comparison in the counter model. -/
def locEq (a b : Location) : Bool := a == b

/-- What an identifier is bound to in the environment: a location
(mutable variable) or directly a value (constant). -/
inductive RhoVal where
  | loc (l : Location)
  | val (v : Value)

/-- `Rho = (_: AST.Identificator) => Location | AST.Value`. The keys the
interpreter actually passes are node objects (see the claims about
identifier resolution). A throwing lookup is `none`. -/
abbrev Rho := Node → Option RhoVal

/-- `Sigma = (_: Location) => AST.Value`, throwing on unbound locations. -/
abbrev Sigma := Location → Option Value

/-- `RHO_0` throws on every key. -/
def RHO_0 : Rho := fun _ => none

/-- `SIGMA_0` throws on every location. -/
def SIGMA_0 : Sigma := fun _ => none

/-- `extend(map, newKey, newValue)`: a new function that returns
`newValue` when its argument is `===` to `newKey` and delegates to the old
function otherwise. The comparison `===` depends on the key type, so it is
a parameter here (`jsEq` for `Rho`, `locEq` for `Sigma`). -/
def extend {K V : Type} (eq : K → K → Bool) (map : K → Option V)
    (newKey : K) (newValue : V) : K → Option V :=
  fun key => if eq key newKey then some newValue else map key

/-- JavaScript `Math.floor` on an exactly-represented rational: the
greatest integer below, computed as floor division of numerator by
denominator (proved equal to Mathlib's `Int.floor` below). -/
def jsFloor (q : ℚ) : ℤ := q.num.fdiv q.den

/-- Truncation toward zero, as in the definition of JavaScript `%`. -/
def jsTrunc (q : ℚ) : ℤ := if 0 ≤ q then jsFloor q else -(jsFloor (-q))

/-- JavaScript `%`: `a - b * trunc(a / b)` (sign follows the dividend). -/
def jsRem (a b : ℚ) : ℚ := a - b * (jsTrunc (a / b) : ℚ)

/-- JavaScript `Math.pow` restricted to the rational model: exact for
integer exponents; non-integer exponents leave the rationals and are out
of the model (no claim exercises them). -/
def jsPow (a b : ℚ) : ℚ := if b.den = 1 then a ^ b.num else 0

/-- `value1 + value2` on number-typed values: NaN propagates. The boolean
cases are unreachable behind the interpreter's typeof guards. -/
def jsAdd : Value → Value → Value
  | .num a, .num b => .num (a + b)
  | _, _ => .nan

/-- `value1 - value2` on number-typed values: NaN propagates. -/
def jsSub : Value → Value → Value
  | .num a, .num b => .num (a - b)
  | _, _ => .nan

/-- `value1 * value2` on number-typed values: NaN propagates. -/
def jsMul : Value → Value → Value
  | .num a, .num b => .num (a * b)
  | _, _ => .nan

/-- `value1 / value2` on number-typed values: NaN propagates. The source
guards `value2 !== 0` before dividing, so the rational case is applied
only with a nonzero divisor (the `a / 0 = Infinity` edge never arises). -/
def jsDiv : Value → Value → Value
  | .num a, .num b => .num (a / b)
  | _, _ => .nan

/-- `Math.floor(value1 / value2)` on number-typed values; Math.floor of
NaN is NaN. Applied only behind the same nonzero guard as `/`. -/
def jsFloorDiv : Value → Value → Value
  | .num a, .num b => .num ((jsFloor (a / b) : ℤ) : ℚ)
  | _, _ => .nan

/-- `value1 % value2` on number-typed values: NaN propagates. Applied
only behind the nonzero guard (the `a % 0 = NaN` edge never arises). -/
def jsRemV : Value → Value → Value
  | .num a, .num b => .num (jsRem a b)
  | _, _ => .nan

/-- `Math.pow(value1, value2)` on number-typed values. NaN propagates in
the rational model; the JavaScript edge `Math.pow(NaN, 0) = 1` and
non-integer exponents are outside it, and no claim exercises `^`. -/
def jsPowV : Value → Value → Value
  | .num a, .num b => .num (jsPow a b)
  | _, _ => .nan

/-- `value1 < value2`: every comparison involving NaN is false. -/
def jsLt : Value → Value → Bool
  | .num a, .num b => decide (a < b)
  | _, _ => false

/-- `value1 > value2`: every comparison involving NaN is false. -/
def jsGt : Value → Value → Bool
  | .num a, .num b => decide (b < a)
  | _, _ => false

/-- `value1 <= value2`: every comparison involving NaN is false. -/
def jsLe : Value → Value → Bool
  | .num a, .num b => decide (a ≤ b)
  | _, _ => false

/-- `value1 >= value2`: every comparison involving NaN is false. -/
def jsGe : Value → Value → Bool
  | .num a, .num b => decide (b ≤ a)
  | _, _ => false

/-- Resolution of an already-extracted identifier key, shared by the
IDENTIFICATOR case of `evaluate` (and the fallthrough into it from the
VALUE case): look the key up in rho, converting a throw into
UNDEFINED_IDENTIFICATOR; dereference a location through sigma, whose
throw on an unbound location is *not* caught by the interpreter. -/
def lookupIdent (rho : Rho) (sigma : Sigma) (identificator : Node) : Except Err Value :=
  match rho identificator with
  | none => .error (.staticE .UNDEFINED_IDENTIFICATOR)
  | some (.loc l) =>
    match sigma l with
    | some v => .ok v
    | none => .error .jsThrow
  | some (.val v) => .ok v

/-- The operator switch of the BINARY_OPERATOR case of `evaluate`, applied
after both operands are evaluated. `operator` is `children[1]`, compared
against string literals by the switch (a non-string never matches and
falls to the default). The nesting mirrors the source: each numeric case
checks `typeof value1 === 'number'` then `typeof value2 === 'number'`
(NaN passes both); `/`, `//` and `%` additionally guard `value2 !== 0`,
which a NaN divisor also passes. Note the source's `!=` case returns
`value1 === value2`, exactly like `==`, with no negation (line 232). -/
def applyBinary (operator : Node) (value1 value2 : Value) : Except Err Value :=
  match operator with
  | .opStr ("+") =>
    if isNum value1 then
      if isNum value2 then .ok (jsAdd value1 value2)
      else .error (.staticE .WRONG_TYPE)
    else .error (.staticE .WRONG_TYPE)
  | .opStr ("-") =>
    if isNum value1 then
      if isNum value2 then .ok (jsSub value1 value2)
      else .error (.staticE .WRONG_TYPE)
    else .error (.staticE .WRONG_TYPE)
  | .opStr ("*") =>
    if isNum value1 then
      if isNum value2 then .ok (jsMul value1 value2)
      else .error (.staticE .WRONG_TYPE)
    else .error (.staticE .WRONG_TYPE)
  | .opStr ("/") =>
    if isNum value1 then
      if isNum value2 then
        match value2 with
        | .num b =>
          if b ≠ 0 then .ok (jsDiv value1 value2)
          else .error (.dynamicE .DIVISION_BY_ZERO)
        | _ => .ok (jsDiv value1 value2)
      else .error (.staticE .WRONG_TYPE)
    else .error (.staticE .WRONG_TYPE)
  | .opStr ("==") =>
    if sameType value1 value2 then .ok (.bool (jsStrictEq value1 value2))
    else .error (.staticE .WRONG_TYPE)
  | .opStr ("!=") =>
    if sameType value1 value2 then .ok (.bool (jsStrictEq value1 value2))
    else .error (.staticE .WRONG_TYPE)
  | .opStr ("<") =>
    if isNum value1 then
      if isNum value2 then .ok (.bool (jsLt value1 value2))
      else .error (.staticE .WRONG_TYPE)
    else .error (.staticE .WRONG_TYPE)
  | .opStr (">") =>
    if isNum value1 then
      if isNum value2 then .ok (.bool (jsGt value1 value2))
      else .error (.staticE .WRONG_TYPE)
    else .error (.staticE .WRONG_TYPE)
  | .opStr ("<=") =>
    if isNum value1 then
      if isNum value2 then .ok (.bool (jsLe value1 value2))
      else .error (.staticE .WRONG_TYPE)
    else .error (.staticE .WRONG_TYPE)
  | .opStr (">=") =>
    if isNum value1 then
      if isNum value2 then .ok (.bool (jsGe value1 value2))
      else .error (.staticE .WRONG_TYPE)
    else .error (.staticE .WRONG_TYPE)
  | .opStr ("&&") =>
    match value1, value2 with
    | .bool a, .bool b => .ok (.bool (a && b))
    | _, _ => .error (.staticE .WRONG_TYPE)
  | .opStr ("||") =>
    match value1, value2 with
    | .bool a, .bool b => .ok (.bool (a || b))
    | _, _ => .error (.staticE .WRONG_TYPE)
  | .opStr ("//") =>
    if isNum value1 then
      if isNum value2 then
        match value2 with
        | .num b =>
          if b ≠ 0 then .ok (jsFloorDiv value1 value2)
          else .error (.dynamicE .DIVISION_BY_ZERO)
        | _ => .ok (jsFloorDiv value1 value2)
      else .error (.staticE .WRONG_TYPE)
    else .error (.staticE .WRONG_TYPE)
  | .opStr ("%") =>
    if isNum value1 then
      if isNum value2 then
        match value2 with
        | .num b =>
          if b ≠ 0 then .ok (jsRemV value1 value2)
          else .error (.dynamicE .DIVISION_BY_ZERO)
        | _ => .ok (jsRemV value1 value2)
      else .error (.staticE .WRONG_TYPE)
    else .error (.staticE .WRONG_TYPE)
  | .opStr ("^") =>
    if isNum value1 then
      if isNum value2 then .ok (jsPowV value1 value2)
      else .error (.staticE .WRONG_TYPE)
    else .error (.staticE .WRONG_TYPE)
  | _ => .error (.dynamicE .UNKNOWN_OPERATOR)

/-- `Interpreter.evaluate(expression, rho, sigma)`. Faithful to the
source's switch, including its two fallthroughs: a VALUE node whose child
is not tagged NUMBER or BOOLEAN falls into the IDENTIFICATOR case, and a
UNARY_OPERATOR whose operator lexeme is none of `!` `+` `-` falls into the
BINARY_OPERATOR case (which then evaluates `children[0]`, the lexeme, and
throws UNKNOWN_EXPRESSION). The VALUE case reads `valueNode.token`:
neither ValueNode class defines a `token` property (the lexeme is stored
in `value`), so the read yields `undefined` and the case returns
`Number(undefined) = NaN` for number literals and
`Boolean(undefined) = false` for both boolean literals. -/
def evaluate : ℕ → Node → Rho → Sigma → Except Err Value
  | 0, _, _, _ => .error .outOfFuel
  | f + 1, expression, rho, sigma =>
    match expression with
    | .undef => .error .jsThrow
    | _ =>
      let cs := childrenOf expression
      match kindOf expression with
      | some .eVALUE =>
        match child cs 0 with
        | .undef => .error .jsThrow
        | valueNode =>
          match kindOf valueNode with
          | some .vNUMBER => .ok .nan
          | some .vBOOLEAN => .ok (.bool false)
          | _ => lookupIdent rho sigma (child cs 0)
      | some .eIDENTIFICATOR => lookupIdent rho sigma (child cs 0)
      | some .eUNARY_OPERATOR =>
        match evaluate f (child cs 1) rho sigma with
        | .error err => .error err
        | .ok value =>
          match child cs 0, value with
          | .opStr ("!"), .bool b => .ok (.bool (!b))
          | .opStr ("!"), _ => .error (.staticE .WRONG_TYPE)
          | .opStr ("+"), .bool _ => .error (.staticE .WRONG_TYPE)
          | .opStr ("+"), v => .ok v
          | .opStr ("-"), .bool _ => .error (.staticE .WRONG_TYPE)
          | .opStr ("-"), v => .ok v
          | _, _ =>
            match evaluate f (child cs 0) rho sigma with
            | .error err => .error err
            | .ok value1 =>
              match evaluate f (child cs 2) rho sigma with
              | .error err => .error err
              | .ok value2 => applyBinary (child cs 1) value1 value2
      | some .eBINARY_OPERATOR =>
        match evaluate f (child cs 0) rho sigma with
        | .error err => .error err
        | .ok value1 =>
          match evaluate f (child cs 2) rho sigma with
          | .error err => .error err
          | .ok value2 => applyBinary (child cs 1) value1 value2
      | some .ePARENTHESIS => evaluate f (child cs 0) rho sigma
      | _ => .error (.dynamicE .UNKNOWN_EXPRESSION)

/-- `Interpreter.elaborate(declaration, rho, sigma)`, plus the threaded
location counter that models the global `Symbol()` allocator. The VARIABLE
and CONSTANT cases destructure `declaration.children` as
`[identificator, expression]`, i.e. they read `children[0]` and
`children[1]` whatever the children actually are. -/
def elaborate : ℕ → Node → Rho → Sigma → ℕ → Except Err (Rho × Sigma × ℕ)
  | 0, _, _, _, _ => .error .outOfFuel
  | f + 1, declaration, rho, sigma, nextLoc =>
    match declaration with
    | .undef => .error .jsThrow
    | _ =>
      let cs := childrenOf declaration
      match kindOf declaration with
      | some .dNIL => .ok (rho, sigma, nextLoc)
      | some .dVARIABLE =>
        match evaluate f (child cs 1) rho sigma with
        | .error err => .error err
        | .ok value =>
          .ok (extend jsEq rho (child cs 0) (.loc nextLoc),
               extend locEq sigma nextLoc value,
               nextLoc + 1)
      | some .dCONSTANT =>
        match evaluate f (child cs 1) rho sigma with
        | .error err => .error err
        | .ok value =>
          .ok (extend jsEq rho (child cs 0) (.val value), sigma, nextLoc)
      | some .dDECLARATION_DECLARATION =>
        match elaborate f (child cs 0) rho sigma nextLoc with
        | .error err => .error err
        | .ok (rho1, sigma1, n1) => elaborate f (child cs 1) rho1 sigma1 n1
      | _ => .error (.staticE .UNKNOWN_DECLARATION)

/-- `Interpreter.execute(command, rho, sigma)`. Besides the store it
returns the threaded location counter and the list of values printed (in
order), modelling the `console.log` side effects of PRINT. -/
def execute : ℕ → Node → Rho → Sigma → ℕ → Except Err (Sigma × ℕ × List Value)
  | 0, _, _, _, _ => .error .outOfFuel
  | f + 1, command, rho, sigma, nextLoc =>
    match command with
    | .undef => .error .jsThrow
    | _ =>
      let cs := childrenOf command
      match kindOf command with
      | some .cNIL => .ok (sigma, nextLoc, [])
      | some .cDECLARATION_COMMAND =>
        match elaborate f (child cs 0) rho sigma nextLoc with
        | .error err => .error err
        | .ok (rho1, sigma1, n1) => execute f (child cs 1) rho1 sigma1 n1
      | some .cCOMMAND_COMMAND =>
        match execute f (child cs 0) rho sigma nextLoc with
        | .error err => .error err
        | .ok (sigma1, n1, out1) =>
          match execute f (child cs 1) rho sigma1 n1 with
          | .error err => .error err
          | .ok (sigma2, n2, out2) => .ok (sigma2, n2, out1 ++ out2)
      | some .cASSIGNMENT =>
        match rho (child cs 0) with
        | none => .error (.staticE .UNDEFINED_IDENTIFICATOR)
        | some (.loc l) =>
          match evaluate f (child cs 1) rho sigma with
          | .error err => .error err
          | .ok value => .ok (extend locEq sigma l value, nextLoc, [])
        | some (.val _) => .error (.staticE .CONSTANT_REASSIGNMENT)
      | some .cIF =>
        match evaluate f (child cs 0) rho sigma with
        | .error err => .error err
        | .ok (.bool b) =>
          if b then execute f (child cs 1) rho sigma nextLoc
          else .ok (sigma, nextLoc, [])
        | .ok _ => .error (.staticE .WRONG_TYPE)
      | some .cIF_ELSE =>
        match evaluate f (child cs 0) rho sigma with
        | .error err => .error err
        | .ok (.bool b) =>
          if b then execute f (child cs 1) rho sigma nextLoc
          else execute f (child cs 2) rho sigma nextLoc
        | .ok _ => .error (.staticE .WRONG_TYPE)
      | some .cWHILE =>
        match evaluate f (child cs 0) rho sigma with
        | .error err => .error err
        | .ok (.bool b) =>
          if b then
            match execute f (child cs 1) rho sigma nextLoc with
            | .error err => .error err
            | .ok (sigma1, n1, out1) =>
              match execute f command rho sigma1 n1 with
              | .error err => .error err
              | .ok (sigma2, n2, out2) => .ok (sigma2, n2, out1 ++ out2)
          else .ok (sigma, nextLoc, [])
        | .ok _ => .error (.staticE .WRONG_TYPE)
      | some .cPRINT =>
        match evaluate f (child cs 0) rho sigma with
        | .error err => .error err
        | .ok value => .ok (sigma, nextLoc, [value])
      | _ => .error (.dynamicE .UNKNOWN_COMMAND)

/-- Expression node for a number literal, as built by the parser actions
`expression := value` and `value := NUMBER_VALUE` (the lexeme is the
payload). -/
def numLit (i j : ℕ) (s : String) : Node :=
  .node i .eVALUE [.valueNode j .vNUMBER s]

/-- Expression node for a boolean literal, as built by the parser actions
`expression := value` and `value := BOOLEAN_VALUE`. -/
def boolLit (i j : ℕ) (s : String) : Node :=
  .node i .eVALUE [.valueNode j .vBOOLEAN s]

/-- Expression node for a binary operator application, as built by the
parser action `expression := expression binary_operator expression`: the
children are the left operand, the raw operator lexeme, and the right
operand. -/
def binNode (i : ℕ) (e1 : Node) (op : String) (e2 : Node) : Node :=
  .node i .eBINARY_OPERATOR [e1, .opStr op, e2]

/-- Expression node wrapping an identifier occurrence, as built by the
parser action `expression := identificator`. -/
def identExpr (i : ℕ) (idn : Node) : Node :=
  .node i .eIDENTIFICATOR [idn]

/-- Expression node for a unary operator application, as built by the
parser action `expression := unary_operator expression`: children are the
raw operator lexeme and the operand. -/
def unaryNode (i : ℕ) (op : String) (e : Node) : Node :=
  .node i .eUNARY_OPERATOR [.opStr op, e]

/-- An environment binding the constants a = 7, b = 2 and z = 0 (as
constant bindings rho maps the identifier nodes directly to values, so
identifier expressions over it evaluate to genuine numbers — unlike
literals, which evaluate through the missing `token` read). Used to
exercise the division operators on real numeric operands. -/
def rhoC8 : Rho :=
  extend jsEq
    (extend jsEq
      (extend jsEq RHO_0 (.identNode 1 ("a")) (.val (.num 7)))
      (.identNode 2 ("b")) (.val (.num 2)))
    (.identNode 3 ("z")) (.val (.num 0))

/-- The declaration of the spec program `let : num x = 5; x = x + 1;
print x`, as the cited grammar's action builds it: the production
`LET identificator : type = expression` stores children
`[identificator, type, expression]`. All node identities are distinct, as
the parser allocates a fresh object per action. -/
def c1decl : Node :=
  .node 1 .dVARIABLE [.identNode 2 ("x"), .typeNode 3 .tNUMBER, numLit 4 5 ("5")]

/-- `x = x + 1` parsed: ASSIGNMENT over a fresh occurrence node of `x` and
the binary expression `x + 1` (with its own fresh occurrence node). -/
def c1assign : Node :=
  .node 6 .cASSIGNMENT
    [.identNode 7 ("x"),
     binNode 8 (identExpr 9 (.identNode 10 ("x"))) ("+") (numLit 11 12 ("1"))]

/-- `print x` parsed, with a fourth fresh occurrence node of `x`. -/
def c1print : Node :=
  .node 13 .cPRINT [identExpr 14 (.identNode 15 ("x"))]

/-- The whole spec program parsed:
DECLARATION_COMMAND(decl, COMMAND_COMMAND(assignment, print)). -/
def c1program : Node :=
  .node 16 .cDECLARATION_COMMAND [c1decl, .node 17 .cCOMMAND_COMMAND [c1assign, c1print]]

/-- The same program with the declaration reshaped to the two-child form
`[identificator, expression]` that the interpreter's destructuring
expects, to show the failure that remains even then. -/
def c1declReshaped : Node :=
  .node 1 .dVARIABLE [.identNode 2 ("x"), numLit 4 5 ("5")]

/-- `c1program` with `c1declReshaped` in place of the parsed declaration. -/
def c1programReshaped : Node :=
  .node 16 .cDECLARATION_COMMAND [c1declReshaped, .node 17 .cCOMMAND_COMMAND [c1assign, c1print]]

/-- The AST the FOR production's action builds (lexer-parser, FOR
production): `CommandNode([$3, CommandNode([$5, CommandNode([$10, $7],
COMMAND_COMMAND)], WHILE)], DECLARATION_COMMAND)` for
`FOR ( declaration , expression , single_command ) DO command_body`,
where `$3` is the init declaration, `$5` the condition, `$7` the step and
`$10` the body; `ia ib ic` are the identities of the three nodes the
action allocates. -/
def forDesugar (ia ib ic : ℕ) (decl cond step body : Node) : Node :=
  .node ia .cDECLARATION_COMMAND
    [decl, .node ib .cWHILE [cond, .node ic .cCOMMAND_COMMAND [body, step]]]

/-- Modelled from the spec's words: the hand-expanded form
`DECLARATION_COMMAND(init_decl, WHILE(cond, COMMAND_COMMAND(body, step)))`
— the loop variable's declaration scoping over a while whose body runs the
original body and then the step. Stated separately from `forDesugar` so the
desugaring can be compared against it. -/
def forHandExpandedSpec (ia ib ic : ℕ) (decl cond step body : Node) : Node :=
  .node ia .cDECLARATION_COMMAND
    [decl, .node ib .cWHILE [cond, .node ic .cCOMMAND_COMMAND [body, step]]]

/-! ## Helper lemmas -/

/-- `===` is reflexive on every children-array value. -/
lemma jsEq_refl (n : Node) : jsEq n n = true := by
  cases n <;> simp [jsEq, nodeId]

/-- `===` on two identifier nodes is identity comparison, whatever the
names are. -/
lemma jsEq_ident_ident (a b : ℕ) (x y : String) :
    jsEq (.identNode a x) (.identNode b y) = (a == b) := rfl

/-- The computable `Math.floor` model agrees with Mathlib's floor. -/
lemma jsFloor_eq_floor (q : ℚ) : jsFloor q = ⌊q⌋ := by
  rw [Rat.floor_def]
  exact Int.fdiv_eq_ediv _ (by positivity)

/-- Floor of a quotient of naturals is natural division. -/
lemma floor_natCast_div (m k : ℕ) :
    (⌊(m : ℚ) / (k : ℚ)⌋ : ℤ) = ((m / k : ℕ) : ℤ) := by
  rw [Rat.floor_natCast_div_natCast]
  exact_mod_cast rfl

/-- On a quotient of naturals, JavaScript `%` is the natural-number
remainder. -/
lemma jsRem_natCast (m k : ℕ) : jsRem (m : ℚ) (k : ℚ) = ((m % k : ℕ) : ℚ) := by
  rcases Nat.eq_zero_or_pos k with hk | hk
  · subst hk
    simp [jsRem, jsTrunc, jsFloor]
  have h0 : (0 : ℚ) ≤ (m : ℚ) / (k : ℚ) := by positivity
  have hfl : jsTrunc ((m : ℚ) / (k : ℚ)) = ((m / k : ℕ) : ℤ) := by
    rw [jsTrunc, if_pos h0, jsFloor_eq_floor, floor_natCast_div]
  rw [jsRem, hfl]
  have hcast : (((m / k : ℕ) : ℤ) : ℚ) = ((m / k : ℕ) : ℚ) := by
    exact_mod_cast rfl
  rw [hcast]
  have hmod : ((k : ℚ) * ((m / k : ℕ) : ℚ) + ((m % k : ℕ) : ℚ)) = (m : ℚ) := by
    exact_mod_cast congrArg (Nat.cast : ℕ → ℚ) (Nat.div_add_mod m k)
  linarith

/-- Evaluating a number-literal expression yields NaN, whatever the
lexeme: the interpreter computes `Number(valueNode.token)` and no `token`
property exists. -/
lemma evaluate_numLit (f i j : ℕ) (s : String) (rho : Rho) (sigma : Sigma) :
    evaluate (f + 1) (numLit i j s) rho sigma = .ok .nan := rfl

/-- Evaluating a boolean-literal expression yields false, whatever the
lexeme: `Boolean(valueNode.token)` is `Boolean(undefined)`. -/
lemma evaluate_boolLit (f i j : ℕ) (s : String) (rho : Rho) (sigma : Sigma) :
    evaluate (f + 1) (boolLit i j s) rho sigma = .ok (.bool false) := rfl

/-- Evaluating an identifier expression resolves the wrapped occurrence
node through rho (and sigma when bound to a location). -/
lemma evaluate_identExpr (f i : ℕ) (idn : Node) (rho : Rho) (sigma : Sigma) :
    evaluate (f + 1) (identExpr i idn) rho sigma = lookupIdent rho sigma idn := rfl

/-- One step of `evaluate` on a binary-operator expression whose operands
evaluate successfully: the operator switch applied to the two values. -/
lemma evaluate_binNode (f i : ℕ) (e1 e2 : Node) (op : String) (rho : Rho) (sigma : Sigma)
    (v1 v2 : Value) (h1 : evaluate f e1 rho sigma = .ok v1)
    (h2 : evaluate f e2 rho sigma = .ok v2) :
    evaluate (f + 1) (binNode i e1 op e2) rho sigma = applyBinary (.opStr op) v1 v2 := by
  simp [evaluate, binNode, child, childrenOf, kindOf, h1, h2]

/-- The `/` case of the operator switch on two numbers. -/
lemma applyBinary_div_eq (a b : ℚ) :
    applyBinary (.opStr ("/")) (.num a) (.num b)
      = if b ≠ 0 then .ok (.num (a / b)) else .error (.dynamicE .DIVISION_BY_ZERO) := rfl

/-- The `//` case of the operator switch on two numbers. -/
lemma applyBinary_floordiv_eq (a b : ℚ) :
    applyBinary (.opStr ("//")) (.num a) (.num b)
      = if b ≠ 0 then .ok (.num ((jsFloor (a / b) : ℤ) : ℚ))
        else .error (.dynamicE .DIVISION_BY_ZERO) := rfl

/-- The `%` case of the operator switch on two numbers. -/
lemma applyBinary_rem_eq (a b : ℚ) :
    applyBinary (.opStr ("%")) (.num a) (.num b)
      = if b ≠ 0 then .ok (.num (jsRem a b)) else .error (.dynamicE .DIVISION_BY_ZERO) := rfl

/-! ## Claims -/

/-- Claim C1: the spec expects `let : num x = 5; x = x + 1; print x` to
print exactly 6 and raise no error. Against the code this fails: executing
the parsed AST from `RHO_0`/`SIGMA_0` raises the dynamic error
UNKNOWN_EXPRESSION, because `elaborate` destructures the declaration's
three children `[identificator, type, expression]` as
`[identificator, expression]` and evaluates the TypeNode as the
initializer. The second conjunct shows the failure that remains even after
reshaping the declaration to the two-child form the interpreter expects:
every occurrence of `x` is a distinct node object and rho compares keys by
reference, so the assignment's lookup raises UNDEFINED_IDENTIFICATOR. -/
theorem c1_spec_program_errors :
    execute 10 c1program RHO_0 SIGMA_0 0 = .error (.dynamicE .UNKNOWN_EXPRESSION)
    ∧ execute 10 c1programReshaped RHO_0 SIGMA_0 0
        = .error (.staticE .UNDEFINED_IDENTIFICATOR) :=
  ⟨rfl, rfl⟩

/-- Claim C2: VALUE nodes should evaluate the literal payload at its
declared primitive type — numbers to their value, `true` to true and
`false` to false. The code reads `valueNode.token`, a property neither
ValueNode class defines (the lexeme sits in `value`), so the read yields
`undefined`: the literal `true` evaluates to `Boolean(undefined) = false`
and every number literal to `Number(undefined) = NaN`. Only the `false`
literal accidentally shows the claimed result. -/
theorem c2_literals_evaluate_through_missing_token :
    evaluate 1 (boolLit 1 2 ("true")) RHO_0 SIGMA_0 = .ok (.bool false)
    ∧ evaluate 1 (numLit 1 2 ("5")) RHO_0 SIGMA_0 = .ok .nan
    ∧ evaluate 1 (boolLit 1 2 ("false")) RHO_0 SIGMA_0 = .ok (.bool false) :=
  ⟨rfl, rfl, rfl⟩

/-- Claim C3: `!=` should return true iff the operands differ. The
source's `!=` case returns `value1 === value2` exactly like `==` (line
232, no negation). Exhibited on genuine numeric operands fed through the
environment (x a variable holding 1, y a constant 2 — literals cannot
supply numbers, they evaluate to NaN): both operands have runtime type
number and different values, yet `x != y` evaluates to false, the same
result `x == y` gives. -/
theorem c3_neq_returns_equality :
    evaluate 2
      (binNode 6 (identExpr 7 (.identNode 1 ("x"))) ("!=") (identExpr 8 (.identNode 2 ("y"))))
      (extend jsEq (extend jsEq RHO_0 (.identNode 1 ("x")) (RhoVal.loc 0))
        (.identNode 2 ("y")) (RhoVal.val (.num 2)))
      (extend locEq SIGMA_0 0 (.num 1))
      = .ok (.bool false)
    ∧ evaluate 2
      (binNode 6 (identExpr 7 (.identNode 1 ("x"))) ("==") (identExpr 8 (.identNode 2 ("y"))))
      (extend jsEq (extend jsEq RHO_0 (.identNode 1 ("x")) (RhoVal.loc 0))
        (.identNode 2 ("y")) (RhoVal.val (.num 2)))
      (extend locEq SIGMA_0 0 (.num 1))
      = .ok (.bool false) :=
  ⟨rfl, rfl⟩

/-- Claim C4: maps built by `extend` compare lookup keys with JavaScript
reference equality, and the interpreter keys the environment by
IdentificatorNode objects (not name strings): resolution succeeds only on
the exact bound node object, two distinct occurrence nodes of the same
name never resolve to each other's binding (in `evaluate` and in
ASSIGNMENT), and `elaborate` binds rho at the node in `children[0]`. -/
theorem c4_environment_keys_are_node_objects :
    (∀ (m : Rho) (k kk : Node) (v : RhoVal),
      extend jsEq m k v kk = if jsEq kk k then some v else m kk)
    ∧ (∀ (x : String) (i1 jx l f : ℕ) (sigma : Sigma) (v : Value),
      sigma l = some v →
      evaluate (f + 1) (identExpr jx (.identNode i1 x))
        (extend jsEq RHO_0 (.identNode i1 x) (.loc l)) sigma = .ok v)
    ∧ (∀ (x : String) (i1 i2 jx l f : ℕ) (sigma : Sigma),
      i1 ≠ i2 →
      evaluate (f + 1) (identExpr jx (.identNode i2 x))
        (extend jsEq RHO_0 (.identNode i1 x) (.loc l)) sigma
        = .error (.staticE .UNDEFINED_IDENTIFICATOR))
    ∧ (∀ (x : String) (i1 i2 jx l f nl : ℕ) (e : Node) (sigma : Sigma),
      i1 ≠ i2 →
      execute (f + 1) (.node jx .cASSIGNMENT [.identNode i2 x, e])
        (extend jsEq RHO_0 (.identNode i1 x) (.loc l)) sigma nl
        = .error (.staticE .UNDEFINED_IDENTIFICATOR))
    ∧ (∀ (f nl jx : ℕ) (i e : Node) (rho : Rho) (sigma : Sigma) (v : Value),
      evaluate f e rho sigma = .ok v →
      elaborate (f + 1) (.node jx .dVARIABLE [i, e]) rho sigma nl
        = .ok (extend jsEq rho i (.loc nl), extend locEq sigma nl v, nl + 1)) := by
  refine ⟨fun m k kk v => rfl, ?_, ?_, ?_, ?_⟩
  · intro x i1 jx l f sigma v hs
    rw [evaluate_identExpr]
    simp [lookupIdent, extend, jsEq_refl, hs]
  · intro x i1 i2 jx l f sigma h
    have hne : jsEq (.identNode i2 x) (.identNode i1 x) = false := by
      rw [jsEq_ident_ident]
      exact beq_eq_false_iff_ne.mpr (Ne.symm h)
    rw [evaluate_identExpr]
    simp [lookupIdent, extend, hne, RHO_0]
  · intro x i1 i2 jx l f nl e sigma h
    have hne : jsEq (.identNode i2 x) (.identNode i1 x) = false := by
      rw [jsEq_ident_ident]
      exact beq_eq_false_iff_ne.mpr (Ne.symm h)
    simp [execute, child, childrenOf, kindOf, extend, hne, RHO_0]
  · intro f nl jx i e rho sigma v he
    simp [elaborate, child, childrenOf, kindOf, he]

/-- Witness for C4: binding node identity 1 for name x, a distinct
occurrence node identity 2 of the same name. -/
theorem c4_environment_keys_are_node_objects_witness :
    extend jsEq RHO_0 (.identNode 1 ("x")) (RhoVal.loc 0) (.identNode 2 ("x"))
      = (if jsEq (.identNode 2 ("x")) (.identNode 1 ("x")) then some (RhoVal.loc 0)
         else RHO_0 (.identNode 2 ("x")))
    ∧ evaluate 1 (identExpr 3 (.identNode 1 ("x")))
        (extend jsEq RHO_0 (.identNode 1 ("x")) (RhoVal.loc 0))
        (extend locEq SIGMA_0 0 (.num 5)) = .ok (.num 5)
    ∧ evaluate 1 (identExpr 3 (.identNode 2 ("x")))
        (extend jsEq RHO_0 (.identNode 1 ("x")) (RhoVal.loc 0))
        (extend locEq SIGMA_0 0 (.num 5)) = .error (.staticE .UNDEFINED_IDENTIFICATOR)
    ∧ execute 1 (.node 4 .cASSIGNMENT [.identNode 2 ("x"), numLit 5 6 ("1")])
        (extend jsEq RHO_0 (.identNode 1 ("x")) (RhoVal.loc 0))
        (extend locEq SIGMA_0 0 (.num 5)) 7 = .error (.staticE .UNDEFINED_IDENTIFICATOR)
    ∧ elaborate 2 (.node 8 .dVARIABLE [.identNode 1 ("x"), numLit 5 6 ("1")]) RHO_0 SIGMA_0 0
        = .ok (extend jsEq RHO_0 (.identNode 1 ("x")) (RhoVal.loc 0),
               extend locEq SIGMA_0 0 Value.nan, 1) :=
  ⟨c4_environment_keys_are_node_objects.1 RHO_0 (.identNode 1 ("x")) (.identNode 2 ("x"))
      (RhoVal.loc 0),
   c4_environment_keys_are_node_objects.2.1 ("x") 1 3 0 0
      (extend locEq SIGMA_0 0 (.num 5)) (.num 5) rfl,
   c4_environment_keys_are_node_objects.2.2.1 ("x") 1 2 3 0 0
      (extend locEq SIGMA_0 0 (.num 5)) (by decide),
   c4_environment_keys_are_node_objects.2.2.2.1 ("x") 1 2 4 0 0 7 (numLit 5 6 ("1"))
      (extend locEq SIGMA_0 0 (.num 5)) (by decide),
   c4_environment_keys_are_node_objects.2.2.2.2 1 0 8 (.identNode 1 ("x")) (numLit 5 6 ("1"))
      RHO_0 SIGMA_0 Value.nan rfl⟩

/-- Claim C5: the parser's FOR action builds exactly
DECLARATION_COMMAND(init, WHILE(cond, COMMAND_COMMAND(body, step))) — the
spec's hand-expanded declaration/while form — so executing the desugared
loop and the hand-expanded form gives identical results (store,
allocations and printed sequence alike) under every environment, store and
fuel. -/
theorem c5_for_desugaring (ia ib ic : ℕ) (decl cond step body : Node)
    (rho : Rho) (sigma : Sigma) (f nl : ℕ) :
    forDesugar ia ib ic decl cond step body
      = forHandExpandedSpec ia ib ic decl cond step body
    ∧ execute f (forDesugar ia ib ic decl cond step body) rho sigma nl
        = execute f (forHandExpandedSpec ia ib ic decl cond step body) rho sigma nl :=
  ⟨rfl, rfl⟩

/-- Claim C6: executing ASSIGNMENT(id, expr) resolves id in rho: unbound
raises UNDEFINED_IDENTIFICATOR; bound directly to a value (a constant)
raises CONSTANT_REASSIGNMENT; bound to a location gives back the store
extended at that location with the evaluated value of expr (no printing,
no allocation). -/
theorem c6_assignment_semantics (jx f nl : ℕ) (idn e : Node) (rho : Rho) (sigma : Sigma) :
    (rho idn = none →
      execute (f + 1) (.node jx .cASSIGNMENT [idn, e]) rho sigma nl
        = .error (.staticE .UNDEFINED_IDENTIFICATOR))
    ∧ (∀ v : Value, rho idn = some (.val v) →
      execute (f + 1) (.node jx .cASSIGNMENT [idn, e]) rho sigma nl
        = .error (.staticE .CONSTANT_REASSIGNMENT))
    ∧ (∀ (l : Location) (v : Value), rho idn = some (.loc l) →
      evaluate f e rho sigma = .ok v →
      execute (f + 1) (.node jx .cASSIGNMENT [idn, e]) rho sigma nl
        = .ok (extend locEq sigma l v, nl, [])) := by
  refine ⟨?_, ?_, ?_⟩
  · intro h
    simp [execute, child, childrenOf, kindOf, h]
  · intro v h
    simp [execute, child, childrenOf, kindOf, h]
  · intro l v hl he
    simp [execute, child, childrenOf, kindOf, hl, he]

/-- Witness for C6: the three behaviours at concrete nodes — unbound x,
constant x, and variable x at location 0 (the assigned literal evaluates
to NaN, the value the store faithfully receives). -/
theorem c6_assignment_semantics_witness :
    execute 1 (.node 4 .cASSIGNMENT [.identNode 1 ("x"), numLit 2 3 ("1")]) RHO_0 SIGMA_0 0
      = .error (.staticE .UNDEFINED_IDENTIFICATOR)
    ∧ execute 1 (.node 4 .cASSIGNMENT [.identNode 1 ("x"), numLit 2 3 ("1")])
        (extend jsEq RHO_0 (.identNode 1 ("x")) (RhoVal.val (.num 5))) SIGMA_0 0
      = .error (.staticE .CONSTANT_REASSIGNMENT)
    ∧ execute 2 (.node 4 .cASSIGNMENT [.identNode 1 ("x"), numLit 2 3 ("1")])
        (extend jsEq RHO_0 (.identNode 1 ("x")) (RhoVal.loc 0)) SIGMA_0 0
      = .ok (extend locEq SIGMA_0 0 Value.nan, 0, []) :=
  ⟨(c6_assignment_semantics 4 0 0 (.identNode 1 ("x")) (numLit 2 3 ("1")) RHO_0 SIGMA_0).1 rfl,
   (c6_assignment_semantics 4 0 0 (.identNode 1 ("x")) (numLit 2 3 ("1"))
      (extend jsEq RHO_0 (.identNode 1 ("x")) (RhoVal.val (.num 5))) SIGMA_0).2.1
      (.num 5) rfl,
   (c6_assignment_semantics 4 1 0 (.identNode 1 ("x")) (numLit 2 3 ("1"))
      (extend jsEq RHO_0 (.identNode 1 ("x")) (RhoVal.loc 0)) SIGMA_0).2.2
      0 Value.nan rfl rfl⟩

/-- Claim C7: executing WHILE(cond, body): a non-boolean condition value
raises WRONG_TYPE; false returns the store unchanged with nothing printed
(zero iterations); true runs body to get an intermediate state and then
re-executes the same WHILE node from it, concatenating the printed
output. -/
theorem c7_while_semantics (jx f nl : ℕ) (cond body : Node) (rho : Rho) (sigma : Sigma) :
    (∀ v : Value, evaluate f cond rho sigma = .ok v → isBool v = false →
      execute (f + 1) (.node jx .cWHILE [cond, body]) rho sigma nl
        = .error (.staticE .WRONG_TYPE))
    ∧ (evaluate f cond rho sigma = .ok (.bool false) →
      execute (f + 1) (.node jx .cWHILE [cond, body]) rho sigma nl
        = .ok (sigma, nl, []))
    ∧ (∀ (s1 s2 : Sigma) (n1 n2 : ℕ) (o1 o2 : List Value),
      evaluate f cond rho sigma = .ok (.bool true) →
      execute f body rho sigma nl = .ok (s1, n1, o1) →
      execute f (.node jx .cWHILE [cond, body]) rho s1 n1 = .ok (s2, n2, o2) →
      execute (f + 1) (.node jx .cWHILE [cond, body]) rho sigma nl
        = .ok (s2, n2, o1 ++ o2)) := by
  refine ⟨?_, ?_, ?_⟩
  · intro v h hv
    cases v with
    | num q => simp [execute, child, childrenOf, kindOf, h]
    | nan => simp [execute, child, childrenOf, kindOf, h]
    | bool b => simp [isBool] at hv
  · intro h
    simp [execute, child, childrenOf, kindOf, h]
  · intro s1 s2 n1 n2 o1 o2 hc hb hw
    simp [execute, child, childrenOf, kindOf, hc, hb, hw]

/-- Witness for C7: a numeric condition (a number literal, whose value is
faithfully NaN — still of type number) raises WRONG_TYPE; a false
condition gives zero iterations; a store-read condition that the body
flips (by assigning the negation of the current store value) runs exactly
one iteration. -/
theorem c7_while_semantics_witness :
    execute 2 (.node 30 .cWHILE [numLit 31 32 ("1"), .node 33 .cNIL []]) RHO_0 SIGMA_0 0
      = .error (.staticE .WRONG_TYPE)
    ∧ execute 2 (.node 30 .cWHILE [boolLit 31 32 ("false"), .node 33 .cNIL []]) RHO_0 SIGMA_0 0
      = .ok (SIGMA_0, 0, [])
    ∧ execute 4 (.node 26 .cWHILE [identExpr 21 (.identNode 20 ("b")),
        .node 22 .cASSIGNMENT [.identNode 20 ("b"),
          unaryNode 23 ("!") (identExpr 24 (.identNode 20 ("b")))]])
        (extend jsEq RHO_0 (.identNode 20 ("b")) (RhoVal.loc 0))
        (extend locEq SIGMA_0 0 (.bool true)) 5
      = .ok (extend locEq (extend locEq SIGMA_0 0 (.bool true)) 0 (.bool false), 5,
             ([] : List Value) ++ ([] : List Value)) :=
  ⟨(c7_while_semantics 30 1 0 (numLit 31 32 ("1")) (.node 33 .cNIL []) RHO_0 SIGMA_0).1
      Value.nan rfl rfl,
   (c7_while_semantics 30 1 0 (boolLit 31 32 ("false"))
      (.node 33 .cNIL []) RHO_0 SIGMA_0).2.1 rfl,
   (c7_while_semantics 26 3 5 (identExpr 21 (.identNode 20 ("b")))
      (.node 22 .cASSIGNMENT [.identNode 20 ("b"),
        unaryNode 23 ("!") (identExpr 24 (.identNode 20 ("b")))])
      (extend jsEq RHO_0 (.identNode 20 ("b")) (RhoVal.loc 0))
      (extend locEq SIGMA_0 0 (.bool true))).2.2
      (extend locEq (extend locEq SIGMA_0 0 (.bool true)) 0 (.bool false))
      (extend locEq (extend locEq SIGMA_0 0 (.bool true)) 0 (.bool false))
      5 5 [] [] rfl rfl rfl⟩

/-- Claim C8: for `/`, `//` and `%` on numeric operands, a zero right
operand raises the dynamic error DIVISION_BY_ZERO; otherwise `/` returns
the exact quotient, `//` the floor of the quotient (Mathlib's floor), and
`%` the remainder `a - b*trunc(a/b)`; on natural-number operands `//` is
natural division and `%` the natural remainder (so 7 // 2 = 3 and
7 % 2 = 1). -/
theorem c8_division_operators (j f : ℕ) (e1 e2 : Node) (rho : Rho) (sigma : Sigma) (a b : ℚ)
    (h1 : evaluate f e1 rho sigma = .ok (.num a))
    (h2 : evaluate f e2 rho sigma = .ok (.num b)) :
    (b = 0 →
      evaluate (f + 1) (binNode j e1 ("/") e2) rho sigma
        = .error (.dynamicE .DIVISION_BY_ZERO)
      ∧ evaluate (f + 1) (binNode j e1 ("//") e2) rho sigma
        = .error (.dynamicE .DIVISION_BY_ZERO)
      ∧ evaluate (f + 1) (binNode j e1 ("%") e2) rho sigma
        = .error (.dynamicE .DIVISION_BY_ZERO))
    ∧ (b ≠ 0 →
      evaluate (f + 1) (binNode j e1 ("/") e2) rho sigma = .ok (.num (a / b))
      ∧ evaluate (f + 1) (binNode j e1 ("//") e2) rho sigma
        = .ok (.num ((⌊a / b⌋ : ℤ) : ℚ))
      ∧ evaluate (f + 1) (binNode j e1 ("%") e2) rho sigma
        = .ok (.num (a - b * ((jsTrunc (a / b) : ℤ) : ℚ))))
    ∧ (∀ m k : ℕ, a = (m : ℚ) → b = (k : ℚ) → k ≠ 0 →
      evaluate (f + 1) (binNode j e1 ("//") e2) rho sigma = .ok (.num ((m / k : ℕ) : ℚ))
      ∧ evaluate (f + 1) (binNode j e1 ("%") e2) rho sigma
        = .ok (.num ((m % k : ℕ) : ℚ))) := by
  have hd := evaluate_binNode f j e1 e2 ("/") rho sigma (.num a) (.num b) h1 h2
  have hfd := evaluate_binNode f j e1 e2 ("//") rho sigma (.num a) (.num b) h1 h2
  have hr := evaluate_binNode f j e1 e2 ("%") rho sigma (.num a) (.num b) h1 h2
  rw [applyBinary_div_eq] at hd
  rw [applyBinary_floordiv_eq] at hfd
  rw [applyBinary_rem_eq] at hr
  refine ⟨?_, ?_, ?_⟩
  · intro hb
    rw [hb] at hd hfd hr
    rw [if_neg (by simp)] at hd hfd hr
    exact ⟨hd, hfd, hr⟩
  · intro hb
    rw [if_pos hb] at hd hfd hr
    refine ⟨hd, ?_, ?_⟩
    · rw [hfd, jsFloor_eq_floor]
    · rw [hr]
      rfl
  · intro m k ha hb hk
    subst ha
    subst hb
    have hkq : ((k : ℚ)) ≠ 0 := Nat.cast_ne_zero.mpr hk
    rw [if_pos hkq] at hfd hr
    constructor
    · rw [hfd, jsFloor_eq_floor, floor_natCast_div, Int.cast_natCast]
    · rw [hr, jsRem_natCast]

/-- Witness for C8, on genuine numeric operands fed through the constant
environment `rhoC8` (a = 7, b = 2, z = 0; literals cannot supply numbers,
they evaluate to NaN): a/z raises DIVISION_BY_ZERO; a // b = 3, a % b = 1,
and a / b is the exact quotient. -/
theorem c8_division_operators_witness :
    evaluate 2 (binNode 10 (identExpr 11 (.identNode 1 ("a"))) ("/")
        (identExpr 12 (.identNode 3 ("z")))) rhoC8 SIGMA_0
      = .error (.dynamicE .DIVISION_BY_ZERO)
    ∧ evaluate 2 (binNode 10 (identExpr 11 (.identNode 1 ("a"))) ("//")
        (identExpr 12 (.identNode 2 ("b")))) rhoC8 SIGMA_0
      = .ok (.num 3)
    ∧ evaluate 2 (binNode 10 (identExpr 11 (.identNode 1 ("a"))) ("%")
        (identExpr 12 (.identNode 2 ("b")))) rhoC8 SIGMA_0
      = .ok (.num 1)
    ∧ evaluate 2 (binNode 10 (identExpr 11 (.identNode 1 ("a"))) ("/")
        (identExpr 12 (.identNode 2 ("b")))) rhoC8 SIGMA_0
      = .ok (.num ((7 : ℚ) / 2)) :=
  ⟨((c8_division_operators 10 1 (identExpr 11 (.identNode 1 ("a")))
      (identExpr 12 (.identNode 3 ("z"))) rhoC8 SIGMA_0 7 0 rfl rfl).1 rfl).1,
   (((c8_division_operators 10 1 (identExpr 11 (.identNode 1 ("a")))
      (identExpr 12 (.identNode 2 ("b"))) rhoC8 SIGMA_0 7 2 rfl rfl).2.2
      7 2 (by norm_num) (by norm_num) (by norm_num)).1).trans (by norm_num),
   (((c8_division_operators 10 1 (identExpr 11 (.identNode 1 ("a")))
      (identExpr 12 (.identNode 2 ("b"))) rhoC8 SIGMA_0 7 2 rfl rfl).2.2
      7 2 (by norm_num) (by norm_num) (by norm_num)).2).trans (by norm_num),
   ((c8_division_operators 10 1 (identExpr 11 (.identNode 1 ("a")))
      (identExpr 12 (.identNode 2 ("b"))) rhoC8 SIGMA_0 7 2 rfl rfl).2.1
      (by norm_num)).1⟩

/-- Claim C9: `extend(m, k, v)` returns v at k, delegates to m at every
other key, and never mutates the previously captured map — in this pure
embedding the old function is untouched by construction, and the
delegation conjuncts show a captured reference still reads its
pre-extension results everywhere outside the new key. Stated for both key
disciplines the interpreter instantiates: node keys under `===` reference
equality (rho) and location tokens (sigma). -/
theorem c9_extend_intercepts_and_delegates (m : Rho) (k kk : Node) (v : RhoVal)
    (s : Sigma) (l ll : Location) (w : Value) :
    extend jsEq m k v k = some v
    ∧ (jsEq kk k = false → extend jsEq m k v kk = m kk)
    ∧ extend locEq s l w l = some w
    ∧ (ll ≠ l → extend locEq s l w ll = s ll) := by
  refine ⟨?_, ?_, ?_, ?_⟩
  · simp [extend, jsEq_refl]
  · intro h
    simp [extend, h]
  · simp [extend, locEq]
  · intro h
    simp [extend, locEq, h]

/-- Witness for C9 at concrete keys: identity 1 vs identity 2 (same
name), and location 0 vs location 1. -/
theorem c9_extend_intercepts_and_delegates_witness :
    extend jsEq RHO_0 (.identNode 1 ("x")) (RhoVal.loc 0) (.identNode 1 ("x"))
      = some (RhoVal.loc 0)
    ∧ extend jsEq RHO_0 (.identNode 1 ("x")) (RhoVal.loc 0) (.identNode 2 ("x"))
      = RHO_0 (.identNode 2 ("x"))
    ∧ extend locEq SIGMA_0 0 (.num 5) 0 = some (.num 5)
    ∧ extend locEq SIGMA_0 0 (.num 5) 1 = SIGMA_0 1 :=
  ⟨(c9_extend_intercepts_and_delegates RHO_0 (.identNode 1 ("x")) (.identNode 2 ("x"))
      (RhoVal.loc 0) SIGMA_0 0 1 (.num 5)).1,
   (c9_extend_intercepts_and_delegates RHO_0 (.identNode 1 ("x")) (.identNode 2 ("x"))
      (RhoVal.loc 0) SIGMA_0 0 1 (.num 5)).2.1 (by decide),
   (c9_extend_intercepts_and_delegates RHO_0 (.identNode 1 ("x")) (.identNode 2 ("x"))
      (RhoVal.loc 0) SIGMA_0 0 1 (.num 5)).2.2.1,
   (c9_extend_intercepts_and_delegates RHO_0 (.identNode 1 ("x")) (.identNode 2 ("x"))
      (RhoVal.loc 0) SIGMA_0 0 1 (.num 5)).2.2.2 (by decide)⟩

/-- Claim C10: the unary `-` case type-checks its operand (boolean raises
WRONG_TYPE) but returns a number-typed operand unchanged — no negation;
this holds for rational values and for NaN alike. -/
theorem c10_unary_minus_identity (j f : ℕ) (e : Node) (rho : Rho) (sigma : Sigma) :
    (∀ q : ℚ, evaluate f e rho sigma = .ok (.num q) →
      evaluate (f + 1) (unaryNode j ("-") e) rho sigma = .ok (.num q))
    ∧ (∀ bb : Bool, evaluate f e rho sigma = .ok (.bool bb) →
      evaluate (f + 1) (unaryNode j ("-") e) rho sigma
        = .error (.staticE .WRONG_TYPE))
    ∧ (evaluate f e rho sigma = .ok .nan →
      evaluate (f + 1) (unaryNode j ("-") e) rho sigma = .ok .nan) := by
  refine ⟨?_, ?_, ?_⟩
  · intro q h
    simp [evaluate, unaryNode, child, childrenOf, kindOf, h]
  · intro bb h
    simp [evaluate, unaryNode, child, childrenOf, kindOf, h]
  · intro h
    simp [evaluate, unaryNode, child, childrenOf, kindOf, h]

/-- Witness for C10: applied to a constant-bound identifier holding 5, the
operand comes back unchanged (not negated); applied to a boolean operand
(the `true` literal — faithfully evaluating to false, still a boolean) it
raises WRONG_TYPE; applied to a number literal the NaN operand comes back
unchanged. -/
theorem c10_unary_minus_identity_witness :
    evaluate 2 (unaryNode 1 ("-") (identExpr 2 (.identNode 3 ("v"))))
      (extend jsEq RHO_0 (.identNode 3 ("v")) (RhoVal.val (.num 5))) SIGMA_0 = .ok (.num 5)
    ∧ evaluate 2 (unaryNode 1 ("-") (boolLit 2 3 ("true"))) RHO_0 SIGMA_0
      = .error (.staticE .WRONG_TYPE)
    ∧ evaluate 2 (unaryNode 1 ("-") (numLit 2 3 ("5"))) RHO_0 SIGMA_0 = .ok .nan :=
  ⟨(c10_unary_minus_identity 1 1 (identExpr 2 (.identNode 3 ("v")))
      (extend jsEq RHO_0 (.identNode 3 ("v")) (RhoVal.val (.num 5))) SIGMA_0).1 5 rfl,
   (c10_unary_minus_identity 1 1 (boolLit 2 3 ("true")) RHO_0 SIGMA_0).2.1 false rfl,
   (c10_unary_minus_identity 1 1 (numLit 2 3 ("5")) RHO_0 SIGMA_0).2.2 rfl⟩

end SmLL
